import Mathlib

/-!
Shallow embedding of the BARNS inventory validation service
(`src/inventory_manager.py`, `src/main_validation.py`, `src/validation_app.py`).

Python dicts are embedded as association lists (`List (String × α)`):
lookup returns the first binding, assignment to an existing key rewrites the
binding in place, and fresh assignment appends (Python dicts preserve
insertion order).  Numeric amounts are embedded as `ℚ`; Python `int(x)`
truncation toward zero is `pyInt`.  The database client is an oracle `Env`
recording what the code observes from it: `dbRead` models
`DatabaseClient.get_inventory` (the stored `current_amount`, `none` for a
missing row) and `dbWrite` models the success flag returned by
`DatabaseClient.update_inventory`.
-/

namespace Barns

/-- Equality on embedded fallible results is decidable. -/
instance {ε α : Type} [DecidableEq ε] [DecidableEq α] : DecidableEq (Except ε α) := fun a b =>
  match a, b with
  | .ok x, .ok y =>
    if h : x = y then .isTrue (by rw [h]) else .isFalse (fun hc => by cases hc; exact h rfl)
  | .error x, .error y =>
    if h : x = y then .isTrue (by rw [h]) else .isFalse (fun hc => by cases hc; exact h rfl)
  | .ok _, .error _ => .isFalse (fun hc => by cases hc)
  | .error _, .ok _ => .isFalse (fun hc => by cases hc)

/-- Python-dict lookup: value of the first binding of key `k`, if any. -/
def alist.find {α : Type} (m : List (String × α)) (k : String) : Option α :=
  (m.find? (fun p => p.1 == k)).map (·.2)

/-- Rewrite every binding of key `k` in place by `f` (Python mutation of the
value stored under an existing key; bindings of other keys untouched). -/
def alist.modify {α : Type} (m : List (String × α)) (k : String) (f : α → α) :
    List (String × α) :=
  m.map (fun p => if p.1 == k then (p.1, f p.2) else p)

/-- Python-dict assignment `m[k] = v`: replace the binding if the key is
present, append it otherwise. -/
def alist.put {α : Type} (m : List (String × α)) (k : String) (v : α) :
    List (String × α) :=
  if m.any (fun p => p.1 == k) then alist.modify m k (fun _ => v) else m ++ [(k, v)]

/-- `int(x)` for a Python float holding the exact rational `q`:
truncation toward zero. -/
def pyInt (q : ℚ) : ℤ := Int.tdiv q.num q.den

/-- One entry of `InventoryManager.inventory_cache[ingredient_type][subtype]`
(`inventory_manager.py` lines 64-70). -/
structure Entry where
  current_amount : ℚ
  last_updated : String
  warning_threshold : ℚ
  critical_threshold : ℚ
  max_capacity : ℚ
deriving Repr, DecidableEq

/-- The nested cache dict: ingredient_type → subtype → entry. -/
abbrev Cache := List (String × List (String × Entry))

/-- Look up the entry for `(t, s)` in the nested cache. -/
def entryOf (cache : Cache) (t s : String) : Option Entry :=
  (alist.find cache t).bind (fun m => alist.find m s)

/-- `cache[t][s]["current_amount"] = v` on the nested cache (only existing
keys are ever written through this path in the source). -/
def setAmount (cache : Cache) (t s : String) (v : ℚ) : Cache :=
  alist.modify cache t (fun m => alist.modify m s (fun e => { e with current_amount := v }))

/-- Exceptions the embedded code can raise. -/
inductive PyError where
  | unboundLocal
  | keyError (k : String)
  | attributeError (name : String)
  | typeError (msg : String)
deriving Repr, DecidableEq

/-- Observable behaviour of the external collaborators: the static
`shot_to_grams` table from `inventory_rules.json`, and the database client's
responses (read: stored current amount, write: success flag). -/
structure Env where
  shotTable : List (ℚ × ℚ)
  dbRead : String → String → Option ℚ
  dbWrite : String → String → ℚ → Bool

/-- `InventoryManager.convert_shots_to_grams` (inventory_manager.py 92-101):
table lookup, defaulting to `shots * 9`. -/
def convert_shots_to_grams (env : Env) (shots : ℚ) : ℚ :=
  ((env.shotTable.find? (fun p => p.1 == shots)).map (·.2)).getD (shots * 9)

/-- `InventoryManager.get_current_count` (inventory_manager.py 78-90):
cached value if present, otherwise a database read defaulting to 0. -/
def get_current_count (env : Env) (cache : Cache) (t s : String) : ℚ :=
  match entryOf cache t s with
  | some e => e.current_amount
  | none => (env.dbRead t s).getD 0

/-- `.get(t, \x7b\x7d).get(s, \x7b\x7d).get(field, 0)` chain used for thresholds. -/
def thresholdOf (cache : Cache) (t s : String) (f : Entry → ℚ) : ℚ :=
  ((entryOf cache t s).map f).getD 0

/-- `InventoryManager.validate_inventory` (inventory_manager.py 104-129).
`converted_amount` is assigned only in the `ingredient_type == "coffee_beans"`
branch, so for every other ingredient type the line
`remaining = current_amount - converted_amount` raises `UnboundLocalError`
(the source comment at lines 119-121 acknowledges this). -/
def validate_inventory (env : Env) (cache : Cache) (t s : String) (amount : ℚ) :
    Except PyError Bool :=
  let current := get_current_count env cache t s
  let crit := thresholdOf cache t s (·.critical_threshold)
  if t == "coffee_beans" then
    let converted := convert_shots_to_grams env ((pyInt amount : ℤ) : ℚ)
    if current - converted < crit then .ok false else .ok true
  else
    .error .unboundLocal

/-- `InventoryManager.update_inventory` (inventory_manager.py 131-174):
convert for coffee beans, add to current, persist, update the cache only on
persistence success, classify the new level. -/
def update_inventory (env : Env) (cache : Cache) (t s : String) (amount : ℚ) :
    (Bool × String) × Cache :=
  let amt := if t == "coffee_beans" then convert_shots_to_grams env ((pyInt amount : ℤ) : ℚ) else amount
  let current := get_current_count env cache t s
  let warn := thresholdOf cache t s (·.warning_threshold)
  let crit := thresholdOf cache t s (·.critical_threshold)
  let newAmount := current + amt
  if env.dbWrite t s newAmount then
    let cache2 := setAmount cache t s newAmount
    if newAmount < crit then ((true, "critical"), cache2)
    else if newAmount < warn then ((true, "warning"), cache2)
    else ((true, "no_warning"), cache2)
  else
    ((false, "no_warning"), cache)

/-- Refill of one `(t, s)` item, the body of the inner loop of
`InventoryManager.refill_inventory` (inventory_manager.py 206-225).
`if not max_capacity` is Python falsiness: a missing entry (`None`) or a
zero capacity both count as failure. -/
def refill_one (env : Env) (cache : Cache) (t s : String) : Bool × Cache :=
  match entryOf cache t s with
  | none => (false, cache)
  | some e =>
    if e.max_capacity == 0 then (false, cache)
    else if env.dbWrite t s e.max_capacity then (true, setAmount cache t s e.max_capacity)
    else (false, cache)

/-- Inner loop of `refill_inventory` over the subtypes of one type, threading
the cache and AND-ing per-item success into the accumulator. -/
def refill_subs (env : Env) (t : String) (subs : List String) (acc : Bool × Cache) :
    Bool × Cache :=
  subs.foldl (fun acc s =>
    let r := refill_one env acc.2 t s
    (acc.1 && r.1, r.2)) acc

/-- Outer loop of `refill_inventory` over the selected ingredient types; the
subtype list is the single requested subtype or the keys of the (current)
cache for that type. -/
def refill_types (env : Env) (tys : List String) (s? : Option String) (acc : Bool × Cache) :
    Bool × Cache :=
  tys.foldl (fun acc t =>
    let subs := match s? with
      | some s => [s]
      | none => ((alist.find acc.2 t).getD []).map Prod.fst
    refill_subs env t subs acc) acc

/-- `InventoryManager.refill_inventory` (inventory_manager.py 176-231):
scope selection and validation, then the nested refill loops. -/
def refill_inventory (env : Env) (cache : Cache) (t? s? : Option String) : Bool × Cache :=
  match t?, s? with
  | none, none => refill_types env (cache.map (·.1)) none (true, cache)
  | some t, none =>
    if (alist.find cache t).isSome then refill_types env [t] none (true, cache)
    else (false, cache)
  | some t, some s =>
    if (entryOf cache t s).isSome then refill_types env [t] (some s) (true, cache)
    else (false, cache)
  | none, some _ => (false, cache)

/-- The percentage computed by `InventoryManager.get_inventory_status`
(inventory_manager.py line 277):
`int(((current_amount - critical_threshold) / max_capacity) * 100)` when
`max_capacity > 0`, else `0`.  Python `int()` truncates toward zero. -/
def statusPercentage (e : Entry) : ℤ :=
  if 0 < e.max_capacity then
    pyInt (((e.current_amount - e.critical_threshold) / e.max_capacity) * 100)
  else 0

/-- The status bucket of `get_inventory_status`
(inventory_manager.py lines 280-287). -/
def statusBucket (p : ℤ) : String :=
  if p ≥ 66 then "high"
  else if p ≥ 33 then "medium"
  else if p ≥ 0 then "low"
  else "empty"

/-- One reported entry of `get_inventory_status`
(inventory_manager.py lines 289-294). -/
structure StatusEntry where
  percentage : ℤ
  amount : ℚ
  status : String
  last_updated : String
deriving Repr, DecidableEq

/-- The per-subtype record built by `get_inventory_status`. -/
def statusEntry (e : Entry) : StatusEntry :=
  { percentage := statusPercentage e
    amount := e.current_amount
    status := statusBucket (statusPercentage e)
    last_updated := e.last_updated }

/-- `InventoryManager.get_inventory_status` (inventory_manager.py 233-296).
The guards mirror Python truthiness: `elif ingredient_type and ...` is false
for the empty string, falling through to `return \x7b\x7d`. -/
def get_inventory_status (cache : Cache) (t? s? : Option String) :
    List (String × List (String × StatusEntry)) :=
  let body (tys : List String) : List (String × List (String × StatusEntry)) :=
    tys.map (fun t =>
      let subs := match s? with
        | some s => [s]
        | none => ((alist.find cache t).getD []).map Prod.fst
      (t, subs.filterMap (fun s => (entryOf cache t s).map (fun e => (s, statusEntry e)))))
  match t?, s? with
  | none, _ => body (cache.map (·.1))
  | some t, none =>
    if t == "" then []
    else if (alist.find cache t).isSome then body [t] else []
  | some t, some s =>
    if t == "" || s == "" then []
    else if (entryOf cache t s).isSome then body [t] else []

/-! ## MainValidation (src/main_validation.py) -/

/-- One ingredient requirement `\x7b"type": subtype, "amount": a\x7d` as it
appears in update and pre_check payloads (the dict field `type` is embedded
as `subtype`). -/
structure IngredientSpec where
  subtype : String
  amount : ℚ
deriving Repr, DecidableEq

/-- Alias normalization of `process_update_inventory_request`
(main_validation.py 87-91): `espresso` → `coffee_beans`, `cup` → `cups`. -/
def normalizeIngredientName (name : String) : String :=
  if name == "espresso" then "coffee_beans"
  else if name == "cup" then "cups"
  else name

/-- Payload of an `update_inventory` request: `payload["payload"]["ingredients"]`
is a list of items, each a dict ingredient-name → spec. -/
structure UpdatePayload where
  request_id : String
  client_type : String
  ingredients : List (List (String × IngredientSpec))
deriving Repr

/-- One entry of the `details` dict built by
`process_update_inventory_request` (the dict field `type` is `dtype`). -/
structure UpdateDetail where
  dtype : String
  updated_amount : ℚ
  status : String
  message : String
deriving Repr, DecidableEq

/-- `subtype in result["details"][ingredient_type].values()`
(main_validation.py 117): membership of the subtype string among the values
of the detail dict; only the three string-valued fields can compare equal. -/
def detailValuesContain (d : UpdateDetail) (s : String) : Bool :=
  s == d.dtype || s == d.status || s == d.message

/-- The `details` bookkeeping of one loop iteration of
`process_update_inventory_request` (main_validation.py 108-125). -/
def updDetailStep (details : List (String × UpdateDetail)) (t s : String) (amount : ℚ)
    (success : Bool) (warning : String) : List (String × UpdateDetail) :=
  if !success then
    alist.put details t
      { dtype := s, updated_amount := 0, status := "failed", message := "Failed to update inventory" }
  else if warning == "no_warning" || warning == "warning" || warning == "critical" then
    match alist.find details t with
    | some d =>
      if detailValuesContain d s then
        alist.modify details t (fun d => { d with updated_amount := d.updated_amount + amount })
      else
        alist.put details t
          { dtype := s, updated_amount := amount, status := warning,
            message := "Inventory " ++ warning ++ " level reached" }
    | none =>
      alist.put details t
        { dtype := s, updated_amount := amount, status := warning,
          message := "Inventory " ++ warning ++ " level reached" }
  else details

/-- One inner-loop iteration of `process_update_inventory_request`
(main_validation.py 86-125): normalize the name, flip the sign for the
scheduler, call `update_inventory`, record the outcome. -/
def updStep (env : Env) (client_type : String)
    (st : (Bool × List (String × UpdateDetail)) × Cache) (pair : String × IngredientSpec) :
    (Bool × List (String × UpdateDetail)) × Cache :=
  let t := normalizeIngredientName pair.1
  let s := pair.2.subtype
  let amount := if client_type == "scheduler" then -pair.2.amount else pair.2.amount
  let r := update_inventory env st.2 t s amount
  ((st.1.1 && r.1.1, updDetailStep st.1.2 t s amount r.1.1 r.1.2), r.2)

/-- Response of `process_update_inventory_request`. -/
structure UpdateResponse where
  passed : Bool
  request_id : String
  client_type : String
  details : List (String × UpdateDetail)
deriving Repr

/-- `MainValidation.process_update_inventory_request` (main_validation.py
70-142): iterate all items' ingredients, updating the live cache through
`InventoryCache.update_inventory`; `passed` starts true and is cleared on any
persistence failure. -/
def process_update_inventory_request (env : Env) (cache : Cache) (p : UpdatePayload) :
    UpdateResponse × Cache :=
  let st := p.ingredients.foldl (fun st item => item.foldl (updStep env p.client_type) st)
    ((true, []), cache)
  ({ passed := st.1.1, request_id := p.request_id, client_type := p.client_type,
     details := st.1.2 }, st.2)

/-! ### pre_check (main_validation.py 212-308)

`process_pre_check_request` takes
`current_inventory_cache = self._inventory_client.inventory_cache.copy()`
(line 223).  `dict.copy()` is a SHALLOW copy: the per-type inner dicts, and
the per-subtype entry dicts inside them, are the same objects as in the live
cache, so `current_inventory_cache[t][s]["current_amount"] = ...` writes the
live cache's entry.  No top-level key of the copy is ever reassigned, hence
the whole handler is faithfully embedded by threading the ONE live cache
through both the reads and the debits.  Exceptions carry the cache at raise
time, since debits already applied are not rolled back by the `except`. -/

/-- One drink item of a pre_check batch. -/
structure PreCheckItem where
  drink_name : String
  cup_id : String
  ingredients : List (String × IngredientSpec)
deriving Repr

/-- Pre_check payload. -/
structure PreCheckPayload where
  request_id : String
  client_type : String
  items : List PreCheckItem
deriving Repr

/-- One per-ingredient (or cup) check record inside an item's details
(the dict field `type` is `dtype`). -/
structure CheckDetail where
  dtype : String
  current : ℚ
  needed : ℚ
  critical_threshold : ℚ
  status : Bool
deriving Repr, DecidableEq

/-- `item_details`: the per-drink record (`"status"` key plus one key per
checked cup/ingredient). -/
structure ItemDetails where
  status : Bool
  checks : List (String × CheckDetail)
deriving Repr, DecidableEq

/-- Running state of the per-item loops: the response-level `passed` flag,
this item's `status` flag, this item's check details, and the (shared,
aliased) cache. -/
structure ItemState where
  passed : Bool
  itemStatus : Bool
  checks : List (String × CheckDetail)
  cache : Cache
deriving Repr

/-- Cup check of one pre_check item (main_validation.py 230-247): debit one
cup from the working copy when the cup check passes. -/
def preCheckCup (item : PreCheckItem) (st : ItemState) :
    Except (PyError × Cache) ItemState := do
  let cupsMap ← match alist.find st.cache "cups" with
    | some m => pure m
    | none => throw (.keyError "cups", st.cache)
  match alist.find cupsMap item.cup_id with
  | none => pure st
  | some e =>
    let current := e.current_amount
    let crit := e.critical_threshold
    let ok := !(current - 1 < crit)
    let st2 := { st with
      passed := st.passed && ok
      itemStatus := st.itemStatus && ok
      checks := alist.put st.checks "cup"
        { dtype := item.cup_id, current := current, needed := 1,
          critical_threshold := crit, status := ok } }
    pure (if ok then { st2 with cache := setAmount st2.cache "cups" item.cup_id (current - 1) } else st2)

/-- Ingredient check of one pre_check item (main_validation.py 250-280).
For coffee beans the needed amount is re-read from
`item["ingredients"]["coffee_beans"]` (line 261), which raises `KeyError`
when the item spelled the ingredient `espresso`. -/
def preCheckIng (env : Env) (item : PreCheckItem) (st : ItemState)
    (pair : String × IngredientSpec) : Except (PyError × Cache) ItemState := do
  let t := if pair.1 == "espresso" then "coffee_beans" else pair.1
  if (alist.find st.cache t).isSome then
    let s := pair.2.subtype
    let amount ← if t == "coffee_beans" then
        match alist.find item.ingredients "coffee_beans" with
        | some cb => pure (convert_shots_to_grams env cb.amount)
        | none => throw ((.keyError "coffee_beans" : PyError), st.cache)
      else pure pair.2.amount
    match entryOf st.cache t s with
    | none => pure st
    | some e =>
      let current := e.current_amount
      let crit := e.critical_threshold
      let ok := !(current - amount < crit)
      let st2 := { st with
        passed := st.passed && ok
        itemStatus := st.itemStatus && ok
        checks := alist.put st.checks pair.1
          { dtype := s, current := current, needed := amount,
            critical_threshold := crit, status := ok } }
      pure (if ok then { st2 with cache := setAmount st2.cache t s (current - amount) } else st2)
  else
    pure st

/-- Accumulated state across the items of a pre_check batch. -/
structure PreCheckState where
  passed : Bool
  drinks : List (String × ItemDetails)
  cache : Cache
deriving Repr

/-- Process one drink item of a pre_check batch (main_validation.py 225-283). -/
def preCheckItemRun (env : Env) (st : PreCheckState) (item : PreCheckItem) :
    Except (PyError × Cache) PreCheckState := do
  let s0 : ItemState :=
    { passed := st.passed, itemStatus := true, checks := [], cache := st.cache }
  let s1 ← preCheckCup item s0
  let s2 ← item.ingredients.foldlM (preCheckIng env item) s1
  pure { passed := s2.passed
         drinks := alist.put st.drinks item.drink_name { status := s2.itemStatus, checks := s2.checks }
         cache := s2.cache }

/-- Human-readable rendering of a raised exception (`str(e)`). -/
def pyErrStr : PyError → String
  | .unboundLocal => "local variable referenced before assignment"
  | .keyError k => k
  | .attributeError n => "InventoryManager object has no attribute " ++ n
  | .typeError m => m

/-- Response details of a pre_check request: per-drink map on success,
plain string in the invalid-client and exception branches. -/
inductive PreCheckDetails where
  | perDrink (m : List (String × ItemDetails))
  | msg (s : String)
deriving Repr, DecidableEq

/-- Response of `process_pre_check_request`. -/
structure PreCheckResponse where
  request_id : String
  client_type : String
  passed : Bool
  details : PreCheckDetails
deriving Repr

/-- `MainValidation.process_pre_check_request` (main_validation.py 212-308).
Returns the response and the live cache after the request (debits applied
through the shallow copy land in the live cache, see above). -/
def process_pre_check_request (env : Env) (cache : Cache) (p : PreCheckPayload) :
    PreCheckResponse × Cache :=
  if p.client_type == "scheduler" then
    match p.items.foldlM (preCheckItemRun env)
      ({ passed := true, drinks := [], cache := cache } : PreCheckState) with
    | .ok st =>
      ({ request_id := p.request_id, client_type := p.client_type,
         passed := st.passed, details := .perDrink st.drinks }, st.cache)
    | .error (e, c) =>
      ({ request_id := p.request_id, client_type := p.client_type,
         passed := false, details := .msg ("Error processing request: " ++ pyErrStr e) }, c)
  else
    ({ request_id := p.request_id, client_type := p.client_type,
       passed := false, details := .msg "Invalid client type" }, cache)

/-! ### Coffee-beans detection and refill (main_validation.py 358-443, 688-768) -/

/-- Outcome of `CoffeeBeansDetector.detect_coffee_beans()`: either a result
dict (whose `percentage` key may be absent) or a raised exception. -/
inductive DetectorOutcome where
  | reading (percentage : Option ℚ)
  | raises (msg : String)
deriving Repr, DecidableEq

/-- The dict returned by `_run_coffee_beans_detection` (the absent
`updated` key of the default branch reads back as falsy, embedded `false`;
the `error`/`timestamp` keys are not modelled). -/
structure DetectionResult where
  success : Bool
  updated : Bool
  percentage : Option ℚ
  alert_type : Option String
  message : String
deriving Repr, DecidableEq

/-- `MainValidation._run_coffee_beans_detection` (main_validation.py
688-768).  When the detected percentage is positive, the code calls
`self._inventory_client.update_inventory_from_detection(...)`
(lines 698, 720); `InventoryManager` defines no such method, so the call
raises `AttributeError`, lands in the `except` (747-768) and nothing was
mutated.  The cache is therefore returned unchanged on every path. -/
def run_coffee_beans_detection (fname : String) (outcome : DetectorOutcome)
    (cache : Cache) : DetectionResult × Cache :=
  let refillFailure : DetectionResult :=
    { success := false, updated := false, percentage := none,
      alert_type := some "camera_reconnect", message := "Detection failed during refill operation" }
  let periodicFailure : DetectionResult :=
    { success := false, updated := false, percentage := none,
      alert_type := none, message := "Detection failed, keeping current inventory amount" }
  match outcome with
  | .raises _ =>
    if fname == "inventory_refill" then (refillFailure, cache) else (periodicFailure, cache)
  | .reading p? =>
    if fname == "periodic_detection" then
      if 0 < p?.getD (-1) then (periodicFailure, cache)
      else
        ({ success := true, updated := false, percentage := some (p?.getD 0), alert_type := none,
           message := "Periodic detection completed, no inventory update (percentage <= 0)" }, cache)
    else if fname == "inventory_refill" then
      if 0 < p?.getD (-1) then (refillFailure, cache)
      else
        ({ success := true, updated := false, percentage := some (p?.getD 0),
           alert_type := some "visibility_issue",
           message := "Refill detection failed - coffee beans should be above the unseen area" }, cache)
    else
      ({ success := true, updated := false, percentage := none, alert_type := none,
         message := "Coffee beans detection completed successfully" }, cache)

/-- The scope test of `process_refill_ingredient_request`
(main_validation.py 370-374). -/
def needsCoffeeDetection (t? s? : Option String) : Bool :=
  (t? == some "coffee_beans" && s? == some "regular") ||
  (t? == some "coffee_beans" && s?.isNone) ||
  (t?.isNone && s?.isNone)

/-- The call `self._inventory_client.refill_inventory(ingredient_type=...,
subtype=..., skip_coffee_regular=...)` (main_validation.py 411-415).
`InventoryManager.refill_inventory` (inventory_manager.py 176) has no
`skip_coffee_regular` parameter, so Python raises `TypeError` at the call
site, before any of the refill body runs. -/
def refill_inventory_with_skip (_env : Env) (_cache : Cache) (_t? _s? : Option String)
    (_skip : Bool) : Except PyError (Bool × Cache) :=
  .error (.typeError "refill_inventory got an unexpected keyword argument skip_coffee_regular")

/-- How Python prints an optional string in an f-string (`None` for absent). -/
def optStr (o : Option String) : String := o.getD "None"

/-- Response of `process_refill_ingredient_request`; the keys of the
`details` dict are embedded as optional fields. -/
structure RefillResponse where
  request_id : String
  client_type : String
  passed : Bool
  error : Option String
  alert_type : Option String
  message : Option String
  coffee_beans_message : Option String
  coffee_beans_percentage : Option ℚ
deriving Repr, DecidableEq

/-- `MainValidation.process_refill_ingredient_request` (main_validation.py
358-443): run coffee-beans detection when the scope requires it, then the
normal refill; the final `passed` is the conjunction computed at line 426. -/
def process_refill_ingredient_request (env : Env) (t? s? : Option String)
    (outcome : DetectorOutcome) (reqId clientType : String) (cache : Cache) :
    RefillResponse × Cache :=
  let needs := needsCoffeeDetection t? s?
  let (d?, coffeeOk, cache1) :=
    if needs then
      let r := run_coffee_beans_detection "inventory_refill" outcome cache
      (some r.1, r.1.success && r.1.updated, r.2)
    else (none, true, cache)
  let coffeeMsg : Option String := d?.bind (fun d =>
    if d.success && d.updated then
      some "Coffee beans regular refilled successfully" else none)
  let coffeePct : Option ℚ := d?.bind (fun d =>
    if d.success && d.updated then some (d.percentage.getD 0) else none)
  let errDetail : Option String := d?.bind (fun d =>
    if d.success && d.updated then none else some d.message)
  let alertDetail : Option String := d?.bind (fun d =>
    if d.success && d.updated then none
    else if d.success then some (d.alert_type.getD "visibility_issue")
    else some (d.alert_type.getD "camera_reconnect"))
  let inner : Except PyError (Bool × Cache) :=
    if coffeeOk then
      if t? == some "coffee_beans" && s? == some "regular" then .ok (true, cache1)
      else refill_inventory_with_skip env cache1 t? s? needs
    else .ok (true, cache1)
  match inner with
  | .ok (normalOk, cache2) =>
    let errDetail2 :=
      if !normalOk && errDetail.isNone then
        some ("Failed to refill " ++ optStr t? ++ ":" ++ optStr s?)
      else errDetail
    let msgDetail :=
      if coffeeOk && !(t? == some "coffee_beans" && s? == some "regular")
          && normalOk && coffeeMsg.isNone then
        some ("Successfully refilled " ++ optStr t? ++ ":" ++ optStr s?)
      else none
    ({ request_id := reqId, client_type := clientType, passed := coffeeOk && normalOk,
       error := errDetail2, alert_type := alertDetail, message := msgDetail,
       coffee_beans_message := coffeeMsg, coffee_beans_percentage := coffeePct }, cache2)
  | .error e =>
    ({ request_id := reqId, client_type := clientType, passed := false,
       error := some ("Error processing request: " ++ pyErrStr e), alert_type := none,
       message := none, coffee_beans_message := none, coffee_beans_percentage := none }, cache1)

/-! ## ValidationServiceApp.process_message (src/validation_app.py 126-170) -/

/-- The response dict built in the unknown-function branch
(validation_app.py 150-155); the error detail is carried in its `error` key. -/
structure UnknownFnResponse where
  request_id : String
  client_type : String
  passed : Bool
  error : String
deriving Repr, DecidableEq

/-- Where `process_message` routes a message. -/
inductive Dispatch where
  | toUpdateInventory
  | toPreCheck
  | toIngredientStatus
  | unknownFn (resp : UnknownFnResponse)
deriving Repr, DecidableEq

/-- Outcome of one `process_message` call: the route taken, whether the
delivery was acked (consumed), and whether it was requeued for retry. -/
structure MessageOutcome where
  route : Dispatch
  acked : Bool
  requeued : Bool
deriving Repr, DecidableEq

/-- `ValidationServiceApp.process_message` dispatch (validation_app.py
126-162): known function names go to their handler; an unknown one builds a
`passed=false` response with an `Unknown function: ...` error detail.  Every
routed message, the unknown case included, is `basic_ack`ed (line 162), so
it is consumed and never redelivered. -/
def process_message (request_id client_type function_name : String) : MessageOutcome :=
  if function_name == "update_inventory" then ⟨.toUpdateInventory, true, false⟩
  else if function_name == "pre_check" then ⟨.toPreCheck, true, false⟩
  else if function_name == "ingredient_status" then ⟨.toIngredientStatus, true, false⟩
  else
    ⟨.unknownFn { request_id := request_id, client_type := client_type, passed := false,
                  error := "Unknown function: " ++ function_name }, true, false⟩

/-- The consumer loop: every delivered message is processed in turn
(`process_message` raises nothing on the routing paths, so one bad message
never stops consumption). -/
def process_message_stream (msgs : List (String × String × String)) : List MessageOutcome :=
  msgs.map (fun m => process_message m.1 m.2.1 m.2.2)

/-! ## MainValidation.request_worker (main_validation.py 607-621) and
`process_ingredient_status_request` (445-486) -/

/-- Response of `process_ingredient_status_request`. -/
structure StatusResponse where
  passed : Bool
  request_id : String
  client_type : String
  details : List (String × List (String × StatusEntry))
deriving Repr, DecidableEq

/-- `MainValidation.process_ingredient_status_request` (main_validation.py
445-486): a pure read of `get_inventory_status`; enqueues one response and
leaves the cache untouched. -/
def process_ingredient_status_request (cache : Cache) (reqId clientType : String)
    (t? s? : Option String) : StatusResponse × Cache :=
  ({ passed := true, request_id := reqId, client_type := clientType,
     details := get_inventory_status cache t? s? }, cache)

/-- Routing view of the worker's if/elif chain (main_validation.py 614-619).
`toPreCheckBatch` stands for dispatching to `process_pre_check_request`;
the worker never selects it. -/
inductive WorkerRoute where
  | toUpdateInventory
  | toIngredientStatus
  | toPreCheckBatch
  | invalidLogged
deriving Repr, DecidableEq

/-- The route the worker takes for a dequeued `function_name`:
`pre_check` shares the `ingredient_status` branch (line 616). -/
def request_worker_route (fname : String) : WorkerRoute :=
  if fname == "update_inventory" then .toUpdateInventory
  else if fname == "ingredient_status" || fname == "pre_check" then .toIngredientStatus
  else .invalidLogged

/-- A request as seen by the in-process worker; the optional scope fields
model `payload.get("payload", \x7b\x7d).get(..., None)` (absent for pre_check
payloads), `update_items` the ingredients of an update payload. -/
structure WorkerRequest where
  request_id : String
  client_type : String
  function_name : String
  ingredient_type : Option String
  subtype : Option String
  update_items : List (List (String × IngredientSpec))
deriving Repr

/-- One iteration of `MainValidation.request_worker` (main_validation.py
607-621) on a dequeued request: returns how many responses were enqueued and
the cache afterwards.  The unknown-function branch only logs. -/
def request_worker_step (env : Env) (cache : Cache) (r : WorkerRequest) : ℕ × Cache :=
  if r.function_name == "update_inventory" then
    let u := process_update_inventory_request env cache
      { request_id := r.request_id, client_type := r.client_type, ingredients := r.update_items }
    (1, u.2)
  else if r.function_name == "ingredient_status" || r.function_name == "pre_check" then
    let u := process_ingredient_status_request cache r.request_id r.client_type
      r.ingredient_type r.subtype
    (1, u.2)
  else (0, cache)

/-! ## Claim-side specification functions -/

/-- Claim side (C7): the update calls one item list induces — aliases
normalized, amount negated exactly for the scheduler — in input order. -/
def itemCalls (client_type : String) (l : List (String × IngredientSpec)) :
    List (String × String × ℚ) :=
  l.map (fun pair =>
    (normalizeIngredientName pair.1, pair.2.subtype,
      if client_type == "scheduler" then -pair.2.amount else pair.2.amount))

/-- Claim side (C7): applying a list of update calls to the cache in order. -/
def applyCalls (env : Env) (cache : Cache) : List (String × String × ℚ) → Cache
  | [] => cache
  | c :: rest => applyCalls env (update_inventory env cache c.1 c.2.1 c.2.2).2 rest

/-- Claim side (C7): every update call in the list persisted successfully
(evaluated against the cache as it evolves). -/
def allPersisted (env : Env) (cache : Cache) : List (String × String × ℚ) → Bool
  | [] => true
  | c :: rest =>
    let r := update_inventory env cache c.1 c.2.1 c.2.2
    r.1.1 && allPersisted env r.2 rest

/-- Claim side (C5): whether refilling the single item `(t, s)` succeeds —
a capacity is configured, nonzero, and the store write succeeds. -/
def itemOk (env : Env) (cache : Cache) (p : String × String) : Bool :=
  match entryOf cache p.1 p.2 with
  | none => false
  | some e => !(e.max_capacity == 0) && env.dbWrite p.1 p.2 e.max_capacity

/-- Claim side (C5): the pairs the full-inventory scope selects. -/
def fullSel (c : Cache) : List (String × String) :=
  c.foldr (fun p acc => p.2.map (fun q => (p.1, q.1)) ++ acc) []

/-- Claim side (C5): the `(type, subtype)` pairs a refill scope selects;
`none` for an invalid scope. -/
def scopeItems (cache : Cache) (t? s? : Option String) : Option (List (String × String)) :=
  match t?, s? with
  | none, none => some (fullSel cache)
  | some t, none =>
    if (alist.find cache t).isSome then
      some ((((alist.find cache t).getD []).map Prod.fst).map (fun s => (t, s)))
    else none
  | some t, some s => if (entryOf cache t s).isSome then some [(t, s)] else none
  | none, some _ => none

/-- Claim side (C5): refilled entry — current_amount set to max_capacity. -/
def setMax (e : Entry) : Entry := { e with current_amount := e.max_capacity }

/-- The configured capacity of `(t, s)` (0 when the entry is absent). -/
def maxOf (cache : Cache) (t s : String) : ℚ :=
  ((entryOf cache t s).map (fun e => e.max_capacity)).getD 0

/-- The subtype keys stored under one ingredient type. -/
def subKeysOf (cache : Cache) (t : String) : List String :=
  ((alist.find cache t).getD []).map Prod.fst

/-- The subtype list the refill loop walks for one type. -/
def subsOf (cache : Cache) (s? : Option String) (t : String) : List String :=
  match s? with
  | some s => [s]
  | none => subKeysOf cache t

/-- A cache with the key shape of a Python dict of dicts: no duplicate
ingredient types, no duplicate subtypes within a type. -/
def WF (cache : Cache) : Prop :=
  (cache.map (·.1)).Nodup ∧ ∀ p ∈ cache, (p.2.map (·.1)).Nodup

/-- Well-formedness of a concrete cache is decidable. -/
instance (cache : Cache) : Decidable (WF cache) := by
  unfold WF
  infer_instance

/-- Claim side (C3): the warning classification in the claim's words. -/
def warningClass (newAmount crit warn : ℚ) : String :=
  if newAmount < crit then "critical"
  else if newAmount < warn then "warning"
  else "no_warning"

/-- Floor of a rational (den is positive, so `fdiv` floors the quotient);
claim side for C4, whose claim states `floor`. -/
def ratFloor (q : ℚ) : ℤ := Int.fdiv q.num q.den

/-- Claim side (C4): the percentage as the claim states it, with `floor`. -/
def claimPercentage (e : Entry) : ℤ :=
  if 0 < e.max_capacity then
    ratFloor (((e.current_amount - e.critical_threshold) / e.max_capacity) * 100)
  else 0

/-- Claim side (C7): concatenation of the per-item ingredient lists in input
order. -/
def flattenItems {α : Type} : List (List α) → List α
  | [] => []
  | x :: xs => x ++ flattenItems xs

/-- Claim side (C7): the per-ingredient update calls the claim describes,
across all items of the payload in input order. -/
def normalizedCalls (client_type : String)
    (ingredients : List (List (String × IngredientSpec))) : List (String × String × ℚ) :=
  itemCalls client_type (flattenItems ingredients)

/-! ## Concrete data for witnesses and counterexamples -/

/-- A concrete environment: the standard shot table and a database whose
writes always succeed. -/
def demoEnv : Env :=
  { shotTable := [(1, 9), (2, 18), (3, 27)]
    dbRead := fun _ _ => none
    dbWrite := fun _ _ _ => true }

/-- Build a concrete cache entry. -/
def mkEntry (cur crit warn maxc : ℚ) : Entry :=
  { current_amount := cur, last_updated := "", warning_threshold := warn,
    critical_threshold := crit, max_capacity := maxc }

/-- A concrete cache in the shape the rules file seeds. -/
def demoCache : Cache :=
  [("coffee_beans", [("regular", mkEntry 100 20 30 1000)]),
   ("cups", [("H7", mkEntry 10 0 2 50)]),
   ("milk", [("whole", mkEntry 50 40 45 1000)]),
   ("syrup", [])]

/-- A one-item scheduler pre_check batch: one latte needing one H7 cup. -/
def demoPreCheck : PreCheckPayload :=
  { request_id := "r1", client_type := "scheduler",
    items := [{ drink_name := "latte", cup_id := "H7", ingredients := [] }] }

/-! ## Theorems

The rational operations of Batteries are `@[irreducible]`, which blocks
`decide` on concrete evaluations; re-expose them for this development. -/

section ClaimProofs

attribute [local semireducible] Rat.add Rat.mul Rat.sub Rat.inv

/-- C1: the claim says a pre_check request leaves the live inventory cache
unchanged.  The code takes only a SHALLOW `dict.copy()` of the cache
(main_validation.py 223), so the per-item debits (lines 247, 280) write the
live cache's entry dicts: a passing one-latte batch debits the live cups/H7
entry from 10 to 9 even though the check is read-only by design. -/
theorem C1_pre_check_mutates_live_cache :
    entryOf demoCache "cups" "H7" = some (mkEntry 10 0 2 50) ∧
    (process_pre_check_request demoEnv demoCache demoPreCheck).1.passed = true ∧
    entryOf (process_pre_check_request demoEnv demoCache demoPreCheck).2 "cups" "H7" =
      some (mkEntry 9 0 2 50) ∧
    (process_pre_check_request demoEnv demoCache demoPreCheck).2 ≠ demoCache := by
  refine ⟨by decide, by decide, by decide, by decide⟩

/-- C2: the claim quantifies over every ingredient_type, but
`validate_inventory` only assigns `converted_amount` in the coffee-beans
branch (inventory_manager.py 109-112), so a milk request raises
`UnboundLocalError` at line 125 instead of returning a bool.  For coffee
beans the claimed strict-inequality rule does hold: 3 shots (27 g) against
current 100/critical 20 is valid, a remainder exactly equal to the critical
threshold (47 - 27 = 20) is valid, and one unit below (46 - 27 = 19) fails. -/
theorem C2_validate_inventory_raises_for_non_coffee :
    validate_inventory demoEnv demoCache "milk" "whole" 20 = .error .unboundLocal ∧
    validate_inventory demoEnv demoCache "coffee_beans" "regular" 3 = .ok true ∧
    validate_inventory demoEnv [("coffee_beans", [("regular", mkEntry 47 20 30 1000)])]
      "coffee_beans" "regular" 3 = .ok true ∧
    validate_inventory demoEnv [("coffee_beans", [("regular", mkEntry 46 20 30 1000)])]
      "coffee_beans" "regular" 3 = .ok false := by
  refine ⟨by decide, by decide, by decide, by decide⟩

/-- C3 counterexample: the claim says `update_inventory` adds the signed
amount to `current_amount`; for coffee beans the code first converts shots
to grams (inventory_manager.py 141-142), so updating coffee_beans/regular
(current 100) by +2 stores 118, not 100 + 2. -/
theorem C3_counterexample_raw_signed_amount :
    (update_inventory demoEnv demoCache "coffee_beans" "regular" 2).1 = (true, "no_warning") ∧
    entryOf (update_inventory demoEnv demoCache "coffee_beans" "regular" 2).2
      "coffee_beans" "regular" = some (mkEntry 118 20 30 1000) ∧
    (118 : ℚ) ≠ 100 + 2 := by
  refine ⟨by decide, by decide, by decide⟩

/-- C4 counterexample: the claim says the percentage is
`floor(((current - critical) / max) * 100)` and that any negative fractional
percentage is bucketed empty.  Python `int()` truncates toward zero: for
current 39, critical 40, max 1000 the raw percentage is -1/10, the code
reports 0 and bucket "low", while the claimed floor gives -1 and bucket
"empty". -/
theorem C4_counterexample_floor_vs_trunc :
    get_inventory_status [("milk", [("whole", mkEntry 39 40 45 1000)])]
        (some "milk") (some "whole") =
      [("milk", [("whole",
        { percentage := 0, amount := 39, status := "low", last_updated := "" })])] ∧
    claimPercentage (mkEntry 39 40 45 1000) = -1 ∧
    statusBucket (claimPercentage (mkEntry 39 40 45 1000)) = "empty" ∧
    ("low" : String) ≠ "empty" := by
  refine ⟨by decide, by decide, by decide, by decide⟩

/-- C3 amended: `update_inventory` adds the signed amount — first converted
through the shot-to-grams table when the ingredient is coffee beans — to
`current_amount`, persists the result, updates the cache only when the
persist succeeded, and classifies the new amount (critical below the
critical threshold, then warning, else no_warning); a successful write below
the critical threshold still returns success with "critical". -/
theorem C3_update_inventory_conversion_amended (env : Env) (cache : Cache)
    (t s : String) (amount : ℚ) :
    update_inventory env cache t s amount =
      (let applied := if t == "coffee_beans" then
          convert_shots_to_grams env ((pyInt amount : ℤ) : ℚ) else amount
       let newAmount := get_current_count env cache t s + applied
       let ok := env.dbWrite t s newAmount
       ((ok, if ok then
          warningClass newAmount (thresholdOf cache t s (·.critical_threshold))
            (thresholdOf cache t s (·.warning_threshold))
         else "no_warning"),
        if ok then setAmount cache t s newAmount else cache)) := by
  simp only [update_inventory, warningClass]
  cases h : env.dbWrite t s (get_current_count env cache t s +
      (if t == "coffee_beans" then convert_shots_to_grams env ((pyInt amount : ℤ) : ℚ)
       else amount)) <;>
    simp [h] <;> split_ifs <;> rfl

/-- The num/den truncation agrees with the floor on nonnegative rationals. -/
theorem pyInt_eq_ratFloor_of_nonneg {q : ℚ} (h : 0 ≤ q) : pyInt q = ratFloor q := by
  have hnum : 0 ≤ q.num := Rat.num_nonneg.mpr h
  have hden : (0 : ℤ) ≤ (q.den : ℤ) := Int.ofNat_nonneg q.den
  unfold pyInt ratFloor
  rw [Int.tdiv_eq_ediv hnum hden, Int.fdiv_eq_ediv _ hden]

/-- The num/den floor division computes the floor. -/
theorem ratFloor_eq_floor (q : ℚ) : ratFloor q = ⌊q⌋ := by
  unfold ratFloor
  rw [Int.fdiv_eq_ediv _ (Int.ofNat_nonneg q.den), Rat.floor_def]

/-- Python `int()` agrees with the floor on nonnegative rationals. -/
theorem pyInt_eq_floor_of_nonneg {q : ℚ} (h : 0 ≤ q) : pyInt q = ⌊q⌋ := by
  unfold pyInt
  rw [Int.tdiv_eq_ediv (Rat.num_nonneg.mpr h) (Int.ofNat_nonneg q.den), Rat.floor_def]

/-- Python `int()` agrees with the ceiling on nonpositive rationals. -/
theorem pyInt_eq_ceil_of_nonpos {q : ℚ} (h : q ≤ 0) : pyInt q = ⌈q⌉ := by
  have hnum : q.num ≤ 0 := Rat.num_nonpos.mpr h
  unfold pyInt
  have h1 : q.num.tdiv q.den = -((-q.num).tdiv q.den) := by
    rw [← Int.neg_tdiv, Int.neg_neg]
  rw [h1, Int.tdiv_eq_ediv (by omega) (Int.ofNat_nonneg q.den)]
  have h2 : (-q.num) / (q.den : ℤ) = ⌊-q⌋ := by
    rw [Rat.floor_def, Rat.num_neg_eq_neg_num, Rat.den_neg_eq_den]
  rw [h2, ← Int.ceil_neg, neg_neg]

/-- The truncation toward zero is negative exactly when the rational is at
most -1 (a fractional value in (-1, 0) truncates to 0). -/
theorem pyInt_neg_iff {q : ℚ} : pyInt q < 0 ↔ q ≤ -1 := by
  rcases le_or_lt 0 q with h | h
  · rw [pyInt_eq_floor_of_nonneg h]
    constructor
    · intro hf
      exact absurd (Int.floor_nonneg.mpr h) (by omega)
    · intro hq
      nlinarith [hq.trans_lt (show (-1 : ℚ) < 0 by norm_num), h]
  · rw [pyInt_eq_ceil_of_nonpos h.le]
    constructor
    · intro hc
      have h1 : ⌈q⌉ ≤ -1 := by omega
      have h2 := Int.ceil_le.mp h1
      simpa using h2
    · intro hq
      have h1 : ⌈q⌉ ≤ ((-1 : ℤ) : ℤ) := Int.ceil_le.mpr (by exact_mod_cast hq)
      omega

/-- The truncation of a negative rational is at most zero. -/
theorem pyInt_nonpos_of_neg {q : ℚ} (h : q < 0) : pyInt q ≤ 0 := by
  rw [pyInt_eq_ceil_of_nonpos h.le]
  exact Int.ceil_le.mpr (by exact_mod_cast h.le)

/-- The bucket of `get_inventory_status` is `empty` exactly for a negative
(truncated) percentage. -/
theorem statusBucket_empty_iff (p : ℤ) : statusBucket p = "empty" ↔ p < 0 := by
  unfold statusBucket
  split_ifs with h1 h2 h3
  · constructor
    · intro h; exact absurd h (by decide)
    · omega
  · constructor
    · intro h; exact absurd h (by decide)
    · omega
  · constructor
    · intro h; exact absurd h (by decide)
    · omega
  · constructor
    · intro _; omega
    · intro _; rfl

/-- C4 amended: `get_inventory_status` reports, for a cached entry with
positive capacity, the percentage as the TRUNCATION toward zero of
`((current_amount - critical_threshold) / max_capacity) * 100` — which
agrees with the claimed floor only on nonnegative values — and buckets
"empty" exactly when that raw percentage is at most -1; a negative
fractional raw percentage strictly above -1 truncates to 0 and is bucketed
"low", not "empty". -/
theorem C4_status_truncation_amended (cache : Cache) (t s : String) (e : Entry)
    (ht : t ≠ "") (hs : s ≠ "") (he : entryOf cache t s = some e)
    (hm : 0 < e.max_capacity) :
    get_inventory_status cache (some t) (some s) = [(t, [(s, statusEntry e)])] ∧
    (statusEntry e).percentage =
      pyInt ((e.current_amount - e.critical_threshold) / e.max_capacity * 100) ∧
    (0 ≤ (e.current_amount - e.critical_threshold) / e.max_capacity * 100 →
      (statusEntry e).percentage =
        ratFloor ((e.current_amount - e.critical_threshold) / e.max_capacity * 100)) ∧
    ((statusEntry e).status = "empty" ↔
      (e.current_amount - e.critical_threshold) / e.max_capacity * 100 ≤ -1) ∧
    (-1 < (e.current_amount - e.critical_threshold) / e.max_capacity * 100 →
      (e.current_amount - e.critical_threshold) / e.max_capacity * 100 < 0 →
      (statusEntry e).status = "low") := by
  have hp : (statusEntry e).percentage =
      pyInt ((e.current_amount - e.critical_threshold) / e.max_capacity * 100) := by
    simp [statusEntry, statusPercentage, hm]
  refine ⟨?_, hp, ?_, ?_, ?_⟩
  · have hbt : (t == "") = false := by simpa using ht
    have hbs : (s == "") = false := by simpa using hs
    simp [get_inventory_status, hbt, hbs, he]
  · intro hnn
    rw [hp, pyInt_eq_floor_of_nonneg hnn, ratFloor_eq_floor]
  · have hst : (statusEntry e).status = statusBucket (statusEntry e).percentage := by
      simp [statusEntry]
    rw [hst, statusBucket_empty_iff, hp, pyInt_neg_iff]
  · intro hgt hlt
    have h0 : pyInt ((e.current_amount - e.critical_threshold) / e.max_capacity * 100) = 0 := by
      have hle := pyInt_nonpos_of_neg hlt
      have hge : ¬ pyInt ((e.current_amount - e.critical_threshold) / e.max_capacity * 100) < 0 := by
        rw [pyInt_neg_iff]
        exact not_le.mpr hgt
      omega
    have hst : (statusEntry e).status = statusBucket (statusEntry e).percentage := by
      simp [statusEntry]
    rw [hst, hp, h0]
    rfl

/-- C4 amended witness: milk/whole at current 39, critical 40, capacity
1000 — raw percentage -1/10, reported 0 and "low". -/
theorem C4_status_truncation_amended_witness :
    get_inventory_status [("milk", [("whole", mkEntry 39 40 45 1000)])]
        (some "milk") (some "whole") =
      [("milk", [("whole", statusEntry (mkEntry 39 40 45 1000))])] ∧
    (statusEntry (mkEntry 39 40 45 1000)).status = "low" := by
  have h := C4_status_truncation_amended [("milk", [("whole", mkEntry 39 40 45 1000)])]
    "milk" "whole" (mkEntry 39 40 45 1000) (by decide) (by decide) (by decide) (by norm_num [mkEntry])
  refine ⟨h.1, ?_⟩
  apply h.2.2.2.2 <;> norm_num [mkEntry]

theorem alist.find_nil {α : Type} (k : String) : alist.find ([] : List (String × α)) k = none := rfl

theorem alist.find_cons {α : Type} (p : String × α) (m : List (String × α)) (k : String) :
    alist.find (p :: m) k = if p.1 == k then some p.2 else alist.find m k := by
  cases h : (p.1 == k) <;> simp [alist.find, List.find?_cons, h]

theorem alist.modify_cons {α : Type} (p : String × α) (m : List (String × α))
    (k : String) (f : α → α) :
    alist.modify (p :: m) k f =
      (if p.1 == k then (p.1, f p.2) else p) :: alist.modify m k f := rfl

theorem alist.find_modify {α : Type} (m : List (String × α)) (k k' : String) (f : α → α) :
    alist.find (alist.modify m k f) k' =
      if k' = k then (alist.find m k').map f else alist.find m k' := by
  induction m with
  | nil => simp [alist.modify, alist.find_nil]
  | cons p rest ih =>
    rw [alist.modify_cons]
    by_cases hp : p.1 = k <;> by_cases hk : p.1 = k' <;> by_cases hkk : k' = k <;>
      simp_all [alist.find_cons]

theorem alist.keys_modify {α : Type} (m : List (String × α)) (k : String) (f : α → α) :
    (alist.modify m k f).map Prod.fst = m.map Prod.fst := by
  induction m with
  | nil => rfl
  | cons p rest ih =>
    rw [alist.modify_cons]
    simp only [List.map_cons, ih]
    congr 1
    split <;> rfl

theorem entryOf_setAmount (cache : Cache) (t s : String) (v : ℚ) (a b : String) :
    entryOf (setAmount cache t s v) a b =
      if a = t ∧ b = s then
        (entryOf cache a b).map (fun e => { e with current_amount := v })
      else entryOf cache a b := by
  by_cases hat : a = t
  · subst hat
    unfold entryOf setAmount
    rw [alist.find_modify, if_pos rfl]
    cases hf : alist.find cache a with
    | none => simp
    | some m =>
      have hred : (Option.map (fun m => alist.modify m s
            (fun e => { e with current_amount := v })) (some m)).bind
            (fun m => alist.find m b) =
          alist.find (alist.modify m s (fun e => { e with current_amount := v })) b := rfl
      rw [hred, alist.find_modify]
      by_cases hbs : b = s <;> simp [hbs]
  · unfold entryOf setAmount
    rw [alist.find_modify, if_neg hat]
    have hc : ¬ (a = t ∧ b = s) := fun hc => hat hc.1
    rw [if_neg hc]

theorem keys_setAmount (cache : Cache) (t s : String) (v : ℚ) :
    (setAmount cache t s v).map Prod.fst = cache.map Prod.fst := by
  unfold setAmount
  exact alist.keys_modify cache t _

theorem subKeysOf_setAmount (cache : Cache) (t s : String) (v : ℚ) (a : String) :
    subKeysOf (setAmount cache t s v) a = subKeysOf cache a := by
  unfold subKeysOf setAmount
  rw [alist.find_modify]
  by_cases hat : a = t
  · subst hat
    simp only [if_pos rfl]
    cases hf : alist.find cache a with
    | none => simp
    | some m => simp [alist.keys_modify]
  · simp [hat]

theorem itemOk_setAmount (env : Env) (cache : Cache) (t s : String) (v : ℚ)
    (p : String × String) :
    itemOk env (setAmount cache t s v) p = itemOk env cache p := by
  unfold itemOk
  rw [entryOf_setAmount]
  by_cases h : p.1 = t ∧ p.2 = s
  · rw [if_pos h]
    cases entryOf cache p.1 p.2 <;> rfl
  · rw [if_neg h]

theorem map_setMax_idem (o : Option Entry) :
    (o.map setMax).map setMax = o.map setMax := by
  cases o <;> rfl

theorem comp_setMax : setMax ∘ setMax = setMax := funext (fun _ => rfl)

theorem entryOf_setAmount_maxOf (cache : Cache) (t s : String) (a b : String) :
    entryOf (setAmount cache t s (maxOf cache t s)) a b =
      if a = t ∧ b = s then (entryOf cache a b).map setMax
      else entryOf cache a b := by
  rw [entryOf_setAmount]
  by_cases h : a = t ∧ b = s
  · rw [if_pos h, if_pos h]
    obtain ⟨h1, h2⟩ := h
    subst h1; subst h2
    cases hf : entryOf cache a b <;> simp [maxOf, hf, setMax]
  · rw [if_neg h, if_neg h]

theorem refill_one_eq (env : Env) (cache : Cache) (t s : String) :
    refill_one env cache t s =
      (itemOk env cache (t, s),
        if itemOk env cache (t, s) then setAmount cache t s (maxOf cache t s) else cache) := by
  unfold refill_one itemOk maxOf
  cases hf : entryOf cache t s with
  | none => simp
  | some e =>
    simp only [Option.map_some, Option.getD_some]
    by_cases hm : e.max_capacity == 0
    · simp [hm]
    · simp only [hm, Bool.not_false, Bool.true_and, if_neg (by simp [hm] : ¬ (e.max_capacity == 0) = true)]
      cases hw : env.dbWrite t s e.max_capacity <;> simp

theorem all_congr_fun {α : Type} (l : List α) (f g : α → Bool) (h : ∀ x, f x = g x) :
    l.all f = l.all g := by
  have hfg : f = g := funext h
  rw [hfg]

theorem refill_subs_spec (env : Env) (t : String) :
    ∀ (subs : List String) (b : Bool) (c : Cache),
      (refill_subs env t subs (b, c)).1 = (b && subs.all (fun s => itemOk env c (t, s))) ∧
      (∀ p : String × String, itemOk env (refill_subs env t subs (b, c)).2 p = itemOk env c p) ∧
      ((refill_subs env t subs (b, c)).2.map Prod.fst = c.map Prod.fst) ∧
      (∀ a, subKeysOf (refill_subs env t subs (b, c)).2 a = subKeysOf c a) ∧
      (∀ a b', entryOf (refill_subs env t subs (b, c)).2 a b' =
        if a = t ∧ b' ∈ subs ∧ itemOk env c (a, b') = true then
          (entryOf c a b').map setMax
        else entryOf c a b') := by
  intro subs
  induction subs with
  | nil =>
    intro b c
    refine ⟨by simp [refill_subs], fun p => rfl, rfl, fun a => rfl, ?_⟩
    intro a b'
    simp [refill_subs]
  | cons s0 rest ih =>
    intro b c
    have h0 : refill_subs env t (s0 :: rest) (b, c) =
        refill_subs env t rest (b && (refill_one env c t s0).1, (refill_one env c t s0).2) := rfl
    cases hok : itemOk env c (t, s0) with
    | false =>
      have hstep : refill_subs env t (s0 :: rest) (b, c) =
          refill_subs env t rest (b && false, c) := by
        rw [h0, refill_one_eq, hok]
        simp
      rw [hstep]
      obtain ⟨g1, g2, g3, g4, g5⟩ := ih (b && false) c
      refine ⟨?_, g2, g3, g4, ?_⟩
      · rw [g1, List.all_cons, hok]
        simp [Bool.and_assoc]
      · intro a b'
        rw [g5 a b']
        by_cases hcond : a = t ∧ b' ∈ rest ∧ itemOk env c (a, b') = true
        · rw [if_pos hcond, if_pos ⟨hcond.1, List.mem_cons_of_mem _ hcond.2.1, hcond.2.2⟩]
        · rw [if_neg hcond]
          by_cases hcond2 : a = t ∧ b' ∈ s0 :: rest ∧ itemOk env c (a, b') = true
          · exfalso
            obtain ⟨h1, h2, h3⟩ := hcond2
            rcases List.mem_cons.mp h2 with h4 | h4
            · subst h1; subst h4
              rw [hok] at h3
              exact Bool.false_ne_true h3
            · exact hcond ⟨h1, h4, h3⟩
          · rw [if_neg hcond2]
    | true =>
      have hstep : refill_subs env t (s0 :: rest) (b, c) =
          refill_subs env t rest (b && true, setAmount c t s0 (maxOf c t s0)) := by
        rw [h0, refill_one_eq, hok]
        simp
      rw [hstep]
      obtain ⟨g1, g2, g3, g4, g5⟩ := ih (b && true) (setAmount c t s0 (maxOf c t s0))
      refine ⟨?_, ?_, ?_, ?_, ?_⟩
      · rw [g1, List.all_cons, hok,
          all_congr_fun rest _ _ (fun s => itemOk_setAmount env c t s0 (maxOf c t s0) (t, s))]
        simp [Bool.and_assoc]
      · intro p
        rw [g2 p, itemOk_setAmount]
      · rw [g3, keys_setAmount]
      · intro a
        rw [g4 a, subKeysOf_setAmount]
      · intro a b'
        rw [g5 a b']
        simp only [itemOk_setAmount, entryOf_setAmount_maxOf]
        clear ih g1 g2 g3 g4 g5 h0 hstep
        by_cases h1 : a = t <;> by_cases h3 : itemOk env c (a, b') = true <;>
          by_cases h2 : b' ∈ rest <;> by_cases h4 : b' = s0 <;>
          simp_all [map_setMax_idem, comp_setMax, List.mem_cons]

theorem subsOf_eq_of_subKeys {c c' : Cache} (s? : Option String)
    (h : ∀ a, subKeysOf c' a = subKeysOf c a) (t : String) :
    subsOf c' s? t = subsOf c s? t := by
  cases s? with
  | none => exact h t
  | some s => rfl

theorem refill_types_spec (env : Env) (s? : Option String) :
    ∀ (tys : List String) (b : Bool) (c : Cache),
      (refill_types env tys s? (b, c)).1 =
        (b && tys.all (fun t => (subsOf c s? t).all (fun s => itemOk env c (t, s)))) ∧
      (∀ p : String × String, itemOk env (refill_types env tys s? (b, c)).2 p = itemOk env c p) ∧
      ((refill_types env tys s? (b, c)).2.map Prod.fst = c.map Prod.fst) ∧
      (∀ a, subKeysOf (refill_types env tys s? (b, c)).2 a = subKeysOf c a) ∧
      (∀ a b', entryOf (refill_types env tys s? (b, c)).2 a b' =
        if a ∈ tys ∧ b' ∈ subsOf c s? a ∧ itemOk env c (a, b') = true then
          (entryOf c a b').map setMax
        else entryOf c a b') := by
  intro tys
  induction tys with
  | nil =>
    intro b c
    refine ⟨by simp [refill_types], fun p => rfl, rfl, fun a => rfl, ?_⟩
    intro a b'
    simp [refill_types]
  | cons t0 rest ih =>
    intro b c
    have h0 : refill_types env (t0 :: rest) s? (b, c) =
        refill_types env rest s? (refill_subs env t0 (subsOf c s? t0) (b, c)) := by
      cases s? <;> rfl
    obtain ⟨f1, f2, f3, f4, f5⟩ := refill_subs_spec env t0 (subsOf c s? t0) b c
    obtain ⟨g1, g2, g3, g4, g5⟩ := ih (refill_subs env t0 (subsOf c s? t0) (b, c)).1
      (refill_subs env t0 (subsOf c s? t0) (b, c)).2
    have heta : ((refill_subs env t0 (subsOf c s? t0) (b, c)).1,
        (refill_subs env t0 (subsOf c s? t0) (b, c)).2) =
        refill_subs env t0 (subsOf c s? t0) (b, c) := by simp
    rw [heta] at g1 g2 g3 g4 g5
    have hsubs : ∀ a, subsOf (refill_subs env t0 (subsOf c s? t0) (b, c)).2 s? a =
        subsOf c s? a := subsOf_eq_of_subKeys s? f4
    refine ⟨?_, ?_, ?_, ?_, ?_⟩
    · rw [h0, g1, f1, List.all_cons]
      have hfun : ∀ t', ((subsOf (refill_subs env t0 (subsOf c s? t0) (b, c)).2 s? t').all
          (fun s => itemOk env (refill_subs env t0 (subsOf c s? t0) (b, c)).2 (t', s))) =
          ((subsOf c s? t').all (fun s => itemOk env c (t', s))) := by
        intro t'
        rw [hsubs t', all_congr_fun _ _ _ (fun s => f2 (t', s))]
      rw [all_congr_fun rest _ _ hfun, Bool.and_assoc]
    · intro p
      rw [h0, g2 p, f2 p]
    · rw [h0, g3, f3]
    · intro a
      rw [h0, g4 a, f4 a]
    · intro a b'
      rw [h0, g5 a b', hsubs a, f2 (a, b'), f5 a b']
      by_cases h1 : a = t0 <;> by_cases hio : itemOk env c (a, b') = true <;>
        by_cases hR : a ∈ rest <;> by_cases hs : b' ∈ subsOf c s? a <;>
        simp_all [comp_setMax, map_setMax_idem, List.mem_cons]

theorem all_congr_mem {α : Type} (l : List α) (f g : α → Bool)
    (h : ∀ x ∈ l, f x = g x) : l.all f = l.all g := by
  induction l with
  | nil => rfl
  | cons x rest ih =>
    simp only [List.all_cons]
    rw [h x (List.mem_cons_self x rest), ih (fun y hy => h y (List.mem_cons_of_mem x hy))]

theorem subKeysOf_cons (t0 : String) (m0 : List (String × Entry)) (rest : Cache) (t : String) :
    subKeysOf ((t0, m0) :: rest) t =
      if t0 = t then m0.map Prod.fst else subKeysOf rest t := by
  unfold subKeysOf
  rw [alist.find_cons]
  by_cases h : t0 = t
  · simp [h]
  · simp only [show ((t0, m0).1 == t) = false by simpa using h, if_neg h]
    rfl

theorem all_map_pair (t0 : String) (m0 : List (String × Entry)) (f : String × String → Bool) :
    (m0.map (fun q => (t0, q.1))).all f = (m0.map Prod.fst).all (fun s => f (t0, s)) := by
  induction m0 with
  | nil => rfl
  | cons q qs ihq => simp only [List.map_cons, List.all_cons, ihq]

theorem scopeItems_none_none (c : Cache) : scopeItems c none none = some (fullSel c) := rfl

theorem fullSel_all (f : String × String → Bool) :
    ∀ (c : Cache), WF c →
      (fullSel c).all f =
        (c.map Prod.fst).all (fun t => (subKeysOf c t).all (fun s => f (t, s))) := by
  intro c
  induction c with
  | nil => intro _; rfl
  | cons p rest ih =>
    intro hwf
    obtain ⟨t0, m0⟩ := p
    have hkeys : ¬ t0 ∈ rest.map Prod.fst := by
      have h := hwf.1
      simp only [List.map_cons, List.nodup_cons] at h
      exact h.1
    have hwfrest : WF rest :=
      ⟨(List.nodup_cons.mp hwf.1).2, fun q hq => hwf.2 q (List.mem_cons_of_mem _ hq)⟩
    have hfull : fullSel ((t0, m0) :: rest) = m0.map (fun q => (t0, q.1)) ++ fullSel rest := rfl
    rw [hfull, List.all_append, List.map_cons, List.all_cons]
    rw [subKeysOf_cons, if_pos rfl]
    have hhead := all_map_pair t0 m0 f
    rw [hhead, ih hwfrest]
    have htail : (rest.map Prod.fst).all
          (fun t => (subKeysOf ((t0, m0) :: rest) t).all (fun s => f (t, s))) =
        (rest.map Prod.fst).all (fun t => (subKeysOf rest t).all (fun s => f (t, s))) := by
      apply all_congr_mem
      intro t ht
      rw [subKeysOf_cons, if_neg (fun he => hkeys (by rw [he]; exact ht))]
    rw [htail]

theorem fullSel_mem :
    ∀ (c : Cache), WF c → ∀ p : String × String, p ∈ fullSel c →
      p.1 ∈ c.map Prod.fst ∧ p.2 ∈ subKeysOf c p.1 := by
  intro c
  induction c with
  | nil => intro _ p hp; cases hp
  | cons q rest ih =>
    intro hwf p hp
    obtain ⟨t0, m0⟩ := q
    have hkeys : ¬ t0 ∈ rest.map Prod.fst := by
      have h := hwf.1
      simp only [List.map_cons, List.nodup_cons] at h
      exact h.1
    have hwfrest : WF rest :=
      ⟨(List.nodup_cons.mp hwf.1).2, fun q hq => hwf.2 q (List.mem_cons_of_mem _ hq)⟩
    have hfull : fullSel ((t0, m0) :: rest) = m0.map (fun q => (t0, q.1)) ++ fullSel rest := rfl
    rw [hfull] at hp
    rcases List.mem_append.mp hp with hp1 | hp2
    · obtain ⟨q0, hq0, hq0e⟩ := List.mem_map.mp hp1
      constructor
      · rw [← hq0e]
        simp
      · rw [← hq0e]
        simp only [subKeysOf_cons, if_pos rfl]
        exact List.mem_map.mpr ⟨q0, hq0, rfl⟩
    · obtain ⟨h1, h2⟩ := ih hwfrest p hp2
      constructor
      · simp only [List.map_cons]
        exact List.mem_cons_of_mem _ h1
      · rw [subKeysOf_cons, if_neg (fun he => hkeys (by rw [he]; exact h1))]
        exact h2

theorem all_map_pair2 (t : String) (l : List String) (f : String × String → Bool) :
    (l.map (fun s => (t, s))).all f = l.all (fun s => f (t, s)) := by
  induction l with
  | nil => rfl
  | cons x xs ih => simp only [List.map_cons, List.all_cons, ih]

/-- C5: for every valid refill scope (single item, whole type, or the
entire inventory), `refill_inventory` returns the AND of the per-item
results (capacity configured and nonzero, store write succeeded), sets each
successfully written item to its max_capacity regardless of other items'
failures (no abort on partial failure), and whenever it returns true a
subsequent `get_current_count` on any selected item reads back exactly that
item's max_capacity. -/
theorem C5_refill_scope_and_roundtrip (env : Env) (cache : Cache) (t? s? : Option String)
    (sel : List (String × String)) (hwf : WF cache)
    (hsel : scopeItems cache t? s? = some sel) :
    (refill_inventory env cache t? s?).1 = sel.all (fun p => itemOk env cache p) ∧
    (∀ p ∈ sel, itemOk env cache p = true →
      entryOf (refill_inventory env cache t? s?).2 p.1 p.2 =
        (entryOf cache p.1 p.2).map setMax) ∧
    ((refill_inventory env cache t? s?).1 = true →
      ∀ p ∈ sel, ∀ e, entryOf cache p.1 p.2 = some e →
        get_current_count env (refill_inventory env cache t? s?).2 p.1 p.2 = e.max_capacity) := by
  suffices h12 : (refill_inventory env cache t? s?).1 =
      sel.all (fun p => itemOk env cache p) ∧
      (∀ p ∈ sel, itemOk env cache p = true →
        entryOf (refill_inventory env cache t? s?).2 p.1 p.2 =
          (entryOf cache p.1 p.2).map setMax) by
    refine ⟨h12.1, h12.2, ?_⟩
    intro hok p hp e he
    have hall : sel.all (fun p => itemOk env cache p) = true := by
      rw [← h12.1]; exact hok
    have hio : itemOk env cache p = true := List.all_eq_true.mp hall p hp
    have hent := h12.2 p hp hio
    rw [he] at hent
    simp [get_current_count, hent, setMax]
  cases t? with
  | none =>
    cases s? with
    | some s => simp [scopeItems] at hsel
    | none =>
      have hseleq : sel = fullSel cache := by
        rw [scopeItems_none_none] at hsel
        exact (Option.some_inj.mp hsel).symm
      subst hseleq
      have hri : refill_inventory env cache none none =
          refill_types env (cache.map Prod.fst) none (true, cache) := rfl
      obtain ⟨g1, _, _, _, g5⟩ :=
        refill_types_spec env none (cache.map Prod.fst) true cache
      constructor
      · rw [hri, g1, Bool.true_and, fullSel_all _ cache hwf]
        rfl
      · intro p hp hio
        obtain ⟨h1, h2⟩ := fullSel_mem cache hwf p hp
        rw [hri, g5 p.1 p.2, if_pos ⟨h1, h2, hio⟩]
  | some t =>
    cases s? with
    | none =>
      by_cases hf : (alist.find cache t).isSome
      · have hseleq : sel = (subKeysOf cache t).map (fun s => (t, s)) := by
          simp only [scopeItems, hf, if_true, subKeysOf] at hsel ⊢
          exact (Option.some_inj.mp hsel).symm
        subst hseleq
        have hri : refill_inventory env cache (some t) none =
            refill_types env [t] none (true, cache) := by
          simp [refill_inventory, hf]
        obtain ⟨g1, _, _, _, g5⟩ := refill_types_spec env none [t] true cache
        constructor
        · rw [hri, g1, Bool.true_and]
          have : ([t].all fun t' => (subsOf cache none t').all (fun s => itemOk env cache (t', s))) =
              (subKeysOf cache t).all (fun s => itemOk env cache (t, s)) := by
            simp [subsOf]
          rw [this, all_map_pair2]
        · intro p hp hio
          obtain ⟨s0, hs0, hs0e⟩ := List.mem_map.mp hp
          subst hs0e
          rw [hri, g5 t s0,
            if_pos ⟨List.mem_singleton_self t, (show s0 ∈ subsOf cache none t from hs0), hio⟩]
      · simp [scopeItems, hf] at hsel
    | some s =>
      by_cases hf : (entryOf cache t s).isSome
      · have hseleq : sel = [(t, s)] := by
          simp only [scopeItems, hf, if_true] at hsel
          exact (Option.some_inj.mp hsel).symm
        subst hseleq
        have hri : refill_inventory env cache (some t) (some s) =
            refill_types env [t] (some s) (true, cache) := by
          simp [refill_inventory, hf]
        obtain ⟨g1, _, _, _, g5⟩ := refill_types_spec env (some s) [t] true cache
        constructor
        · rw [hri, g1]
          simp [subsOf]
        · intro p hp hio
          have hpe : p = (t, s) := by simpa using hp
          subst hpe
          rw [hri, g5 t s,
            if_pos ⟨List.mem_singleton_self t, by simp [subsOf], hio⟩]
      · simp [scopeItems, hf] at hsel


/-- C5 witness: the single-item scope milk/whole on the demo cache — the
refill reports the per-item conjunction and the round trip reads back the
configured capacity 1000. -/
theorem C5_refill_scope_and_roundtrip_witness :
    (refill_inventory demoEnv demoCache (some "milk") (some "whole")).1 =
      ([("milk", "whole")] : List (String × String)).all
        (fun p => itemOk demoEnv demoCache p) ∧
    get_current_count demoEnv
      (refill_inventory demoEnv demoCache (some "milk") (some "whole")).2
      "milk" "whole" = 1000 := by
  have h := C5_refill_scope_and_roundtrip demoEnv demoCache (some "milk") (some "whole")
    [("milk", "whole")] (by decide) (by decide)
  refine ⟨h.1, ?_⟩
  have h3 := h.2.2 (by decide) ("milk", "whole") (by decide)
    (mkEntry 50 40 45 1000) (by decide)
  simpa [mkEntry] using h3

/-- C6: an unknown function name routes to the fallback branch of
`process_message` (validation_app.py 148-156): the response has
`passed = false` and its error detail is `Unknown function: <name>`; the
message is acked (consumed, not requeued, so not retried), and the consumer
keeps processing every subsequent message. -/
theorem C6_unknown_function_isolated (request_id client_type fname : String)
    (h1 : fname ≠ "update_inventory") (h2 : fname ≠ "pre_check")
    (h3 : fname ≠ "ingredient_status") :
    process_message request_id client_type fname =
      ⟨.unknownFn { request_id := request_id, client_type := client_type, passed := false,
                    error := "Unknown function: " ++ fname }, true, false⟩ ∧
    (∀ rest, process_message_stream ((request_id, client_type, fname) :: rest) =
      process_message request_id client_type fname :: process_message_stream rest) := by
  constructor
  · simp only [process_message, beq_iff_eq, if_neg h1, if_neg h3, if_neg h2]
  · intro rest
    simp [process_message_stream]

/-- C6 witness: the scenario with `function_name = "foo"`. -/
theorem C6_unknown_function_isolated_witness :
    process_message "r1" "scheduler" "foo" =
      ⟨.unknownFn { request_id := "r1", client_type := "scheduler", passed := false,
                    error := "Unknown function: foo" }, true, false⟩ := by
  have h := (C6_unknown_function_isolated "r1" "scheduler" "foo"
    (by decide) (by decide) (by decide)).1
  simpa using h

/-- Claim-side fold lemma: applying calls distributes over append. -/
theorem applyCalls_append (env : Env) (xs ys : List (String × String × ℚ)) :
    ∀ c, applyCalls env c (xs ++ ys) = applyCalls env (applyCalls env c xs) ys := by
  induction xs with
  | nil => intro c; rfl
  | cons x rest ih => intro c; simp [applyCalls, ih]

/-- Claim-side fold lemma: persistence of appended call lists. -/
theorem allPersisted_append (env : Env) (xs ys : List (String × String × ℚ)) :
    ∀ c, allPersisted env c (xs ++ ys) =
      (allPersisted env c xs && allPersisted env (applyCalls env c xs) ys) := by
  induction xs with
  | nil => intro c; simp [allPersisted, applyCalls]
  | cons x rest ih =>
    intro c
    simp [allPersisted, applyCalls, ih, Bool.and_assoc]

/-- The inner ingredient loop of `process_update_inventory_request` realizes
exactly the normalized update calls of one item: the passed flag picks up
the conjunction of persistence results and the cache evolves by the same
calls. -/
theorem updStep_foldl (env : Env) (ct : String) :
    ∀ (l : List (String × IngredientSpec)) (b : Bool) (d : List (String × UpdateDetail))
      (c : Cache),
      (l.foldl (updStep env ct) ((b, d), c)).1.1 =
        (b && allPersisted env c (itemCalls ct l)) ∧
      (l.foldl (updStep env ct) ((b, d), c)).2 = applyCalls env c (itemCalls ct l) := by
  intro l
  induction l with
  | nil => intro b d c; simp [itemCalls, allPersisted, applyCalls]
  | cons pair rest ih =>
    intro b d c
    simp only [List.foldl_cons, itemCalls, List.map_cons]
    have h := ih (b && (update_inventory env c (normalizeIngredientName pair.1) pair.2.subtype
        (if ct == "scheduler" then -pair.2.amount else pair.2.amount)).1.1)
      (updDetailStep d (normalizeIngredientName pair.1) pair.2.subtype
        (if ct == "scheduler" then -pair.2.amount else pair.2.amount)
        (update_inventory env c (normalizeIngredientName pair.1) pair.2.subtype
          (if ct == "scheduler" then -pair.2.amount else pair.2.amount)).1.1
        (update_inventory env c (normalizeIngredientName pair.1) pair.2.subtype
          (if ct == "scheduler" then -pair.2.amount else pair.2.amount)).1.2)
      (update_inventory env c (normalizeIngredientName pair.1) pair.2.subtype
        (if ct == "scheduler" then -pair.2.amount else pair.2.amount)).2
    constructor
    · rw [show (updStep env ct ((b, d), c) pair) = ((b && (update_inventory env c
        (normalizeIngredientName pair.1) pair.2.subtype
        (if ct == "scheduler" then -pair.2.amount else pair.2.amount)).1.1,
        updDetailStep d (normalizeIngredientName pair.1) pair.2.subtype
          (if ct == "scheduler" then -pair.2.amount else pair.2.amount)
          (update_inventory env c (normalizeIngredientName pair.1) pair.2.subtype
            (if ct == "scheduler" then -pair.2.amount else pair.2.amount)).1.1
          (update_inventory env c (normalizeIngredientName pair.1) pair.2.subtype
            (if ct == "scheduler" then -pair.2.amount else pair.2.amount)).1.2),
        (update_inventory env c (normalizeIngredientName pair.1) pair.2.subtype
          (if ct == "scheduler" then -pair.2.amount else pair.2.amount)).2) from rfl]
      rw [h.1]
      simp [allPersisted, Bool.and_assoc, itemCalls]
    · rw [show (updStep env ct ((b, d), c) pair) = ((b && (update_inventory env c
        (normalizeIngredientName pair.1) pair.2.subtype
        (if ct == "scheduler" then -pair.2.amount else pair.2.amount)).1.1,
        updDetailStep d (normalizeIngredientName pair.1) pair.2.subtype
          (if ct == "scheduler" then -pair.2.amount else pair.2.amount)
          (update_inventory env c (normalizeIngredientName pair.1) pair.2.subtype
            (if ct == "scheduler" then -pair.2.amount else pair.2.amount)).1.1
          (update_inventory env c (normalizeIngredientName pair.1) pair.2.subtype
            (if ct == "scheduler" then -pair.2.amount else pair.2.amount)).1.2),
        (update_inventory env c (normalizeIngredientName pair.1) pair.2.subtype
          (if ct == "scheduler" then -pair.2.amount else pair.2.amount)).2) from rfl]
      rw [h.2]
      simp [applyCalls, itemCalls]

/-- The normalized calls of a payload split item by item. -/
theorem normalizedCalls_cons (ct : String) (item : List (String × IngredientSpec))
    (Ls : List (List (String × IngredientSpec))) :
    normalizedCalls ct (item :: Ls) = itemCalls ct item ++ normalizedCalls ct Ls := by
  simp [normalizedCalls, flattenItems, itemCalls]

/-- The nested item/ingredient loop of `process_update_inventory_request`
realizes the normalized calls of the whole payload. -/
theorem upd_nested_foldl (env : Env) (ct : String) :
    ∀ (L : List (List (String × IngredientSpec))) (b : Bool)
      (d : List (String × UpdateDetail)) (c : Cache),
      (L.foldl (fun st item => item.foldl (updStep env ct) st) ((b, d), c)).1.1 =
        (b && allPersisted env c (normalizedCalls ct L)) ∧
      (L.foldl (fun st item => item.foldl (updStep env ct) st) ((b, d), c)).2 =
        applyCalls env c (normalizedCalls ct L) := by
  intro L
  induction L with
  | nil =>
    intro b d c
    simp [normalizedCalls, flattenItems, itemCalls, allPersisted, applyCalls]
  | cons item Ls ih =>
    intro b d c
    simp only [List.foldl_cons]
    obtain ⟨h1, h2⟩ := updStep_foldl env ct item b d c
    set st1 := item.foldl (updStep env ct) ((b, d), c) with hst
    obtain ⟨g1, g2⟩ := ih st1.1.1 st1.1.2 st1.2
    have hsplit : ((st1.1.1, st1.1.2), st1.2) = st1 := by simp
    rw [hsplit] at g1 g2
    rw [normalizedCalls_cons]
    constructor
    · rw [g1, h1, h2, allPersisted_append, ← Bool.and_assoc]
    · rw [g2, h2, applyCalls_append]

/-- C7: `process_update_inventory_request` performs, per ingredient in input
order, an `update_inventory` call with the alias-normalized type and the
amount negated exactly when the client is the scheduler; the response's
`passed` is true iff every one of those calls persisted (warning or critical
classifications on a successful persist never clear it), and the cache
evolves by exactly those calls. -/
theorem C7_update_request_sign_alias_passed (env : Env) (cache : Cache) (p : UpdatePayload) :
    (process_update_inventory_request env cache p).1.passed =
      allPersisted env cache (normalizedCalls p.client_type p.ingredients) ∧
    (process_update_inventory_request env cache p).2 =
      applyCalls env cache (normalizedCalls p.client_type p.ingredients) ∧
    (process_update_inventory_request env cache p).1.request_id = p.request_id ∧
    (process_update_inventory_request env cache p).1.client_type = p.client_type := by
  obtain ⟨h1, h2⟩ := upd_nested_foldl env p.client_type p.ingredients true [] cache
  refine ⟨?_, ?_, rfl, rfl⟩
  · simpa [process_update_inventory_request] using h1
  · simpa [process_update_inventory_request] using h2

/-- C8: for a refill scope that requires coffee-beans detection, a detector
reading with percentage ≤ 0 yields `passed = false` with alert_type
"visibility_issue" and no inventory mutation, while a raising detector
yields `passed = false` with alert_type "camera_reconnect" and no mutation
(main_validation.py 380-398 together with 716-737 and 750-759). -/
theorem C8_refill_detection_gate (env : Env) (t? s? : Option String)
    (reqId ct : String) (cache : Cache) (h : needsCoffeeDetection t? s? = true) :
    (∀ p : ℚ, p ≤ 0 →
      (process_refill_ingredient_request env t? s? (.reading (some p)) reqId ct cache).1.passed
          = false ∧
      (process_refill_ingredient_request env t? s? (.reading (some p)) reqId ct cache).1.alert_type
          = some "visibility_issue" ∧
      (process_refill_ingredient_request env t? s? (.reading (some p)) reqId ct cache).2 = cache) ∧
    (∀ msg : String,
      (process_refill_ingredient_request env t? s? (.raises msg) reqId ct cache).1.passed
          = false ∧
      (process_refill_ingredient_request env t? s? (.raises msg) reqId ct cache).1.alert_type
          = some "camera_reconnect" ∧
      (process_refill_ingredient_request env t? s? (.raises msg) reqId ct cache).2 = cache) := by
  constructor
  · intro p hp
    have hnot : ¬ (0 < p) := not_lt.mpr hp
    simp [process_refill_ingredient_request, run_coffee_beans_detection, h, hnot]
  · intro msg
    simp [process_refill_ingredient_request, run_coffee_beans_detection, h]

/-- C8 witness: the spec scenario — coffee_beans/regular with detected
percentage -1, and the same scope with a raising detector. -/
theorem C8_refill_detection_gate_witness :
    ((process_refill_ingredient_request demoEnv (some "coffee_beans") (some "regular")
        (.reading (some (-1))) "r1" "dashboard" demoCache).1.passed = false ∧
      (process_refill_ingredient_request demoEnv (some "coffee_beans") (some "regular")
        (.reading (some (-1))) "r1" "dashboard" demoCache).1.alert_type
          = some "visibility_issue" ∧
      (process_refill_ingredient_request demoEnv (some "coffee_beans") (some "regular")
        (.reading (some (-1))) "r1" "dashboard" demoCache).2 = demoCache) ∧
    ((process_refill_ingredient_request demoEnv (some "coffee_beans") (some "regular")
        (.raises "camera offline") "r1" "dashboard" demoCache).1.passed = false ∧
      (process_refill_ingredient_request demoEnv (some "coffee_beans") (some "regular")
        (.raises "camera offline") "r1" "dashboard" demoCache).1.alert_type
          = some "camera_reconnect" ∧
      (process_refill_ingredient_request demoEnv (some "coffee_beans") (some "regular")
        (.raises "camera offline") "r1" "dashboard" demoCache).2 = demoCache) := by
  have h := C8_refill_detection_gate demoEnv (some "coffee_beans") (some "regular")
    "r1" "dashboard" demoCache (by decide)
  exact ⟨h.1 (-1) (by norm_num), h.2 "camera offline"⟩

/-- C9: `_run_coffee_beans_detection` never mutates the inventory; on a
positive detected percentage it calls the nonexistent
`update_inventory_from_detection` (AttributeError), so the refill path
reports success=false with alert_type "camera_reconnect" and the periodic
path fails silently (no alert); and every refill scope that reaches the
normal-refill call dies on the `skip_coffee_regular` keyword (TypeError in
`refill_inventory`), answering `passed = false` with the exception detail
and no mutation. -/
theorem C9_detection_never_mutates_and_skip_kwarg :
    (∀ (fname : String) (outcome : DetectorOutcome) (cache : Cache),
      (run_coffee_beans_detection fname outcome cache).2 = cache) ∧
    (∀ (p : ℚ) (cache : Cache), 0 < p →
      ((run_coffee_beans_detection "inventory_refill" (.reading (some p)) cache).1.success
          = false ∧
        (run_coffee_beans_detection "inventory_refill" (.reading (some p)) cache).1.alert_type
          = some "camera_reconnect") ∧
      ((run_coffee_beans_detection "periodic_detection" (.reading (some p)) cache).1.success
          = false ∧
        (run_coffee_beans_detection "periodic_detection" (.reading (some p)) cache).1.alert_type
          = none)) ∧
    (∀ (env : Env) (t? s? : Option String) (outcome : DetectorOutcome)
        (reqId ct : String) (cache : Cache),
      needsCoffeeDetection t? s? = false →
      (process_refill_ingredient_request env t? s? outcome reqId ct cache).1.passed = false ∧
      (process_refill_ingredient_request env t? s? outcome reqId ct cache).1.error =
        some ("Error processing request: " ++
          pyErrStr (.typeError
            "refill_inventory got an unexpected keyword argument skip_coffee_regular")) ∧
      (process_refill_ingredient_request env t? s? outcome reqId ct cache).2 = cache) := by
  refine ⟨?_, ?_, ?_⟩
  · intro fname outcome cache
    unfold run_coffee_beans_detection
    cases outcome <;> dsimp only <;> (repeat' split) <;> rfl
  · intro p cache hp
    simp [run_coffee_beans_detection, hp]
  · intro env t? s? outcome reqId ct cache h
    have hcr : ¬ (t? = some "coffee_beans" ∧ s? = some "regular") := by
      rintro ⟨ha, hb⟩
      subst ha; subst hb
      simp [needsCoffeeDetection] at h
    simp [process_refill_ingredient_request, h, refill_inventory_with_skip, hcr]

/-- C9 witness: a positive reading on both detection paths, and the
milk/whole refill scope dying on the keyword argument. -/
theorem C9_detection_never_mutates_and_skip_kwarg_witness :
    (run_coffee_beans_detection "inventory_refill" (.reading (some 80)) demoCache).2
        = demoCache ∧
    (run_coffee_beans_detection "inventory_refill" (.reading (some 80)) demoCache).1.success
        = false ∧
    (run_coffee_beans_detection "periodic_detection" (.reading (some 80)) demoCache).1.alert_type
        = none ∧
    (process_refill_ingredient_request demoEnv (some "milk") (some "whole")
        (.reading (some 80)) "r1" "dashboard" demoCache).1.passed = false ∧
    (process_refill_ingredient_request demoEnv (some "milk") (some "whole")
        (.reading (some 80)) "r1" "dashboard" demoCache).2 = demoCache := by
  have h := C9_detection_never_mutates_and_skip_kwarg
  have h3 := h.2.2 demoEnv (some "milk") (some "whole") (.reading (some 80))
    "r1" "dashboard" demoCache (by decide)
  exact ⟨h.1 "inventory_refill" (.reading (some 80)) demoCache,
    ((h.2.1 80 demoCache (by norm_num)).1).1,
    ((h.2.1 80 demoCache (by norm_num)).2).2,
    h3.1, h3.2.2⟩

/-- C10: the in-process worker (main_validation.py 614-619) sends a
dequeued `pre_check` request to `process_ingredient_status_request` — a pure
read that enqueues one status response and leaves the cache untouched, so
the queue path never performs the pre_check debit projection — and for any
other function name outside the three known ones it only logs, enqueuing no
response and touching nothing. -/
theorem C10_worker_pre_check_alias_and_silent_drop (env : Env) (cache : Cache)
    (r : WorkerRequest) :
    (request_worker_route "pre_check" = .toIngredientStatus) ∧
    (r.function_name = "pre_check" → request_worker_step env cache r = (1, cache)) ∧
    (r.function_name ≠ "update_inventory" → r.function_name ≠ "ingredient_status" →
      r.function_name ≠ "pre_check" →
      request_worker_route r.function_name = .invalidLogged ∧
      request_worker_step env cache r = (0, cache)) := by
  refine ⟨by decide, ?_, ?_⟩
  · intro h
    simp [request_worker_step, h, process_ingredient_status_request]
  · intro h1 h2 h3
    constructor
    · simp [request_worker_route, h1, h2, h3]
    · simp [request_worker_step, h1, h2, h3]

/-- C10 witness: a concrete pre_check request and a concrete unknown one. -/
theorem C10_worker_pre_check_alias_and_silent_drop_witness :
    request_worker_route "pre_check" = .toIngredientStatus ∧
    request_worker_step demoEnv demoCache
      { request_id := "r1", client_type := "scheduler", function_name := "pre_check",
        ingredient_type := none, subtype := none, update_items := [] } = (1, demoCache) ∧
    request_worker_step demoEnv demoCache
      { request_id := "r2", client_type := "scheduler", function_name := "foo",
        ingredient_type := none, subtype := none, update_items := [] } = (0, demoCache) := by
  refine ⟨(C10_worker_pre_check_alias_and_silent_drop demoEnv demoCache
      { request_id := "r1", client_type := "scheduler", function_name := "pre_check",
        ingredient_type := none, subtype := none, update_items := [] }).1,
    (C10_worker_pre_check_alias_and_silent_drop demoEnv demoCache
      { request_id := "r1", client_type := "scheduler", function_name := "pre_check",
        ingredient_type := none, subtype := none, update_items := [] }).2.1 rfl,
    ((C10_worker_pre_check_alias_and_silent_drop demoEnv demoCache
      { request_id := "r2", client_type := "scheduler", function_name := "foo",
        ingredient_type := none, subtype := none, update_items := [] }).2.2
      (by decide) (by decide) (by decide)).2⟩

end ClaimProofs

end Barns
